import Mathlib

/-!
Shallow embedding of the travel-planning orchestrator repository
(`travel_domain_agents.py`, `travel-orchestrator.py`, `WeatherAgent.py`).

Embedding conventions:
* A Python `datetime.date` is represented by its proleptic-Gregorian ordinal
  (`date.toordinal`) as an `Int`; `date` subtraction and `date + timedelta(days=i)`
  are then integer subtraction and addition, and `date.fromisoformat` /
  `date.isoformat` are the standard-library bijection between valid ISO strings
  and ordinals, elided by the embedding.  Where a date value is kept as an
  unparsed ISO string by the source (the `TravelerPrefs` record), it is kept as
  a `String` here too, and the `fromisoformat` validity check is embedded as an
  executable `validISODate` predicate on strings.
* Python floats in this code are exact decimals, embedded as `Rat`.
* Exceptions are embedded as `Except PyErr`; `PyErr` distinguishes the Python
  exception classes raised by the code (`RuntimeError`, `ValueError`, pydantic
  `ValidationError`, missing-argument `KeyError`/`TypeError`, `IndexError`).
* The LLM endpoint is an oracle parameter `oracle : List Message → ModelResponse`,
  and JSON-parsing of a final answer into an `Itinerary` is a parameter
  `parse : String → Option Itinerary` (both are external to the repository).
* `asyncio.gather` over the stub agents: the stubs contain no real suspension
  points, so the gathered calls run to completion in scheduling order; the
  turn is embedded as a sequential left-to-right fold over the requested calls.
-/

namespace Travel

/-- Python exception classes raised by the embedded code. -/
inductive PyErr where
  | runtimeError (msg : String)
  | valueError (msg : String)
  | validationError
  | keyError (k : String)
  | indexError
  deriving Repr, DecidableEq

/-- Is this error a Python `RuntimeError`? -/
def PyErr.isRuntimeError : PyErr → Bool
  | .runtimeError _ => true
  | _ => false

/-- Is this error a Python `ValueError`?  Pydantic v1's `ValidationError`
subclasses `ValueError`, so it counts. -/
def PyErr.isValueError : PyErr → Bool
  | .valueError _ => true
  | .validationError => true
  | _ => false

/-! ### ISO-8601 date strings (`datetime.date.fromisoformat`) -/

/-- Gregorian leap year. -/
def isLeap (y : Nat) : Bool := y % 4 == 0 && (y % 100 != 0 || y % 400 == 0)

/-- Number of days in month `m` of year `y`. -/
def daysInMonth (y m : Nat) : Nat :=
  if m = 2 then (if isLeap y then 29 else 28)
  else if m = 4 ∨ m = 6 ∨ m = 9 ∨ m = 11 then 30
  else 31

/-- Numeric value of a decimal digit character. -/
def digitVal (c : Char) : Nat := c.toNat - 48

/-- `datetime.date.fromisoformat` accepts exactly `YYYY-MM-DD` with a valid
calendar date in years 1..9999; this is its validity predicate. -/
def validISODate (s : String) : Bool :=
  match s.toList with
  | [y1, y2, y3, y4, s1, m1, m2, s2, d1, d2] =>
    y1.isDigit && y2.isDigit && y3.isDigit && y4.isDigit &&
    m1.isDigit && m2.isDigit && d1.isDigit && d2.isDigit &&
    s1 == '-' && s2 == '-' &&
    (let y := 1000 * digitVal y1 + 100 * digitVal y2 + 10 * digitVal y3 + digitVal y4
     let m := 10 * digitVal m1 + digitVal m2
     let d := 10 * digitVal d1 + digitVal d2
     1 ≤ y && 1 ≤ m && m ≤ 12 && 1 ≤ d && d ≤ daysInMonth y m)
  | _ => false

/-! ### Pydantic schemas (`travel_domain_agents.py` lines 22-87) -/

/-- `WeatherSummary` pydantic model; `dates` holds date ordinals (see header). -/
structure WeatherSummary where
  city : String
  dates : List Int
  highs_c : List Rat
  lows_c : List Rat
  conditions : List String
  deriving Repr, DecidableEq

/-- The `Literal["economy", "premium_economy", "business", "first"]` cabin type. -/
inductive Cabin where
  | economy | premium_economy | business | first
  deriving Repr, DecidableEq

/-- `FlightOption` pydantic model. -/
structure FlightOption where
  carrier : String
  flight_number : String
  depart_time_local : String
  arrive_time_local : String
  duration : String
  cabin : Cabin
  price_currency : String
  price_total : Rat
  deriving Repr, DecidableEq

/-- `HotelOption` pydantic model; `checkin`/`checkout` as date ordinals. -/
structure HotelOption where
  name : String
  address : String
  checkin : Int
  checkout : Int
  rating : Rat
  price_currency : String
  price_total : Rat
  cancellation_policy : Option String := none
  deriving Repr, DecidableEq

/-- A local date-time literal `f"{date}T{time}"`: date ordinal plus time-of-day text. -/
structure LocalDT where
  day : Int
  time : String
  deriving Repr, DecidableEq

/-- `EventOption` pydantic model. -/
structure EventOption where
  title : String
  start : LocalDT
  «end» : Option LocalDT := none
  venue : Option String := none
  price_currency : Option String := none
  price_total : Option Rat := none
  category : Option String := none
  url : Option String := none
  deriving Repr, DecidableEq

/-- `TravelerPrefs` pydantic model (validated record; date fields kept as the
accepted ISO strings, exactly as the source stores them). -/
structure TravelerPrefs where
  origin : String
  destination : String
  depart_date : String
  return_date : Option String
  travelers : Int := 1
  cabin : Cabin := .economy
  budget_currency : String := "USD"
  max_flight_price : Option Rat := none
  max_hotel_price_per_night : Option Rat := none
  hotel_rooms : Int := 1
  interests : List String := []
  deriving Repr, DecidableEq

/-- Raw keyword arguments for `TravelerPrefs(**kwargs)`: `none` marks an absent
key.  `return_date` distinguishes absent (`none`) from present-`null`
(`some none`). -/
structure RawPrefs where
  origin : Option String := none
  destination : Option String := none
  depart_date : Option String := none
  return_date : Option (Option String) := none
  travelers : Option Int := none
  cabin : Option Cabin := none
  budget_currency : Option String := none
  max_flight_price : Option Rat := none
  max_hotel_price_per_night : Option Rat := none
  hotel_rooms : Option Int := none
  interests : Option (List String) := none
  deriving Repr, DecidableEq

/-- The `_check_date` validator (`pre=True, always=True` on `depart_date` and
`return_date`): `None` passes, otherwise `dt.date.fromisoformat(v)` must
succeed and `v` is returned unchanged. -/
def checkDate (v : Option String) : Bool :=
  match v with
  | none => true
  | some s => validISODate s

/-- Constructing `TravelerPrefs(**r)` under pydantic v1 semantics: `origin`,
`destination`, `depart_date` are required; `return_date : Optional[str]`
defaults to `None`; the remaining fields have the declared defaults; the
`_check_date` validator runs on `depart_date` and `return_date`. -/
def mkTravelerPrefs (r : RawPrefs) : Except PyErr TravelerPrefs :=
  match r.origin, r.destination, r.depart_date with
  | some o, some dest, some dep =>
    let ret : Option String := r.return_date.getD none
    if checkDate (some dep) && checkDate ret then
      .ok { origin := o
            destination := dest
            depart_date := dep
            return_date := ret
            travelers := r.travelers.getD 1
            cabin := r.cabin.getD .economy
            budget_currency := r.budget_currency.getD "USD"
            max_flight_price := r.max_flight_price
            max_hotel_price_per_night := r.max_hotel_price_per_night
            hotel_rooms := r.hotel_rooms.getD 1
            interests := r.interests.getD [] }
    else .error .validationError
  | _, _, _ => .error .validationError

/-- `ItineraryDay` pydantic model. -/
structure ItineraryDay where
  date : String
  morning : Option String := none
  afternoon : Option String := none
  evening : Option String := none
  notes : Option String := none
  deriving Repr, DecidableEq

/-- `Itinerary` pydantic model. -/
structure Itinerary where
  summary : String
  flights : List FlightOption
  hotel : Option HotelOption
  weather : Option WeatherSummary
  events : List EventOption := []
  plan : List ItineraryDay := []
  est_total_currency : String
  est_total_amount : Rat
  deriving Repr, DecidableEq

/-! ### Domain agent stubs (`travel_domain_agents.py` lines 92-189; the same
`weather_agent` also appears verbatim in `WeatherAgent.py`) -/

/-- `weather_agent(city, start_date, end_date)` with the two dates already
parsed to ordinals (`dt.date.fromisoformat` is the embedding boundary). -/
def weather_agent (city : String) (start_date end_date : Int) : WeatherSummary :=
  let days : Nat := (end_date - start_date + 1).toNat
  let highs : List Rat := (List.range days).map (fun i => 26 + (i % 3 : Nat))
  let lows : List Rat := (List.range days).map (fun i => 18 + (i % 3 : Nat))
  let conds : List String := (List.replicate (days / 3 + 1)
      ["clear", "partly cloudy", "light rain"]).flatten
  { city := city
    dates := (List.range days).map (fun (i : Nat) => start_date + (i : Int))
    highs_c := highs.take days
    lows_c := lows.take days
    conditions := conds.take days }

/-- `flights_agent(prefs)`. -/
def flights_agent (prefs : TravelerPrefs) : List FlightOption :=
  [ { carrier := "Example Air"
      flight_number := "EA123"
      depart_time_local := prefs.depart_date ++ "T09:15"
      arrive_time_local := prefs.depart_date ++ "T14:45"
      duration := "5h 30m"
      cabin := prefs.cabin
      price_currency := prefs.budget_currency
      price_total := 480 * (prefs.travelers : Rat) },
    { carrier := "SampleJet"
      flight_number := "SJ456"
      depart_time_local := prefs.depart_date ++ "T17:30"
      arrive_time_local := prefs.depart_date ++ "T23:05"
      duration := "5h 35m"
      cabin := prefs.cabin
      price_currency := prefs.budget_currency
      price_total := 520 * (prefs.travelers : Rat) } ]

/-- `hotels_agent(destination, checkin, checkout, rooms, max_price_per_night,
currency)`; `nights = abs((checkin - checkout).days) or 1`. -/
def hotels_agent (destination : String) (checkin checkout : Int) (rooms : Int)
    (max_price_per_night : Option Rat) (currency : String) : List HotelOption :=
  let nights0 : Nat := (checkin - checkout).natAbs
  let nights : Nat := if nights0 = 0 then 1 else nights0
  let base : Rat := 140
  let total : Rat := base * nights * rooms
  [ { name := "Central Square Hotel"
      address := "Downtown, " ++ destination
      checkin := checkin
      checkout := checkout
      rating := (9 : Rat) / 2
      price_currency := currency
      price_total := total
      cancellation_policy := some "Free cancellation until 24h before check-in" },
    { name := "Riverside Boutique"
      address := "Riverside, " ++ destination
      checkin := checkin
      checkout := checkout
      rating := (21 : Rat) / 5
      price_currency := currency
      price_total := total * ((11 : Rat) / 10)
      cancellation_policy := some "Partial refund" } ]

/-- `events_agent(city, start_date, end_date, interests)`. -/
def events_agent (city : String) (start_date end_date : Int)
    (interests : List String) : List EventOption :=
  [ { title := "Open-Air Food Market"
      start := ⟨start_date, "18:00"⟩
      «end» := some ⟨start_date, "21:00"⟩
      venue := some "Old Town Plaza"
      category := some "food"
      price_currency := some "USD"
      price_total := some 0
      url := some "https://example.com/events/market" },
    { title := "Live Jazz Night"
      start := ⟨start_date + 1, "20:00"⟩
      venue := some "Blue Note Club"
      category := some "music"
      price_currency := some "USD"
      price_total := some 35
      url := some "https://example.com/events/jazz" } ]

/-- The booking record returned by `book_agent`. -/
structure BookingResult where
  flight_booking_id : String
  hotel_booking_id : Option String
  status : String
  deriving Repr, DecidableEq

/-- `book_agent(selected_flight, selected_hotel)`. -/
def book_agent (selected_flight : FlightOption) (selected_hotel : Option HotelOption) :
    BookingResult :=
  { flight_booking_id := "BK-FLT-XYZ123"
    hotel_booking_id := if selected_hotel.isSome then some "BK-HTL-ABC987" else none
    status := "PENDING_CONFIRMATION" }

/-! ### Orchestrator state (`travel-orchestrator.py`) -/

/-- The five keys of `self.accumulator`. -/
inductive AccKey where
  | weather | flights | hotels | events | booking
  deriving Repr, DecidableEq

/-- The value stored under an accumulator key. -/
inductive AccVal where
  | weatherV (w : Option WeatherSummary)
  | flightsV (fs : List FlightOption)
  | hotelsV (hs : List HotelOption)
  | eventsV (es : List EventOption)
  | bookingV (b : Option BookingResult)
  deriving Repr, DecidableEq

/-- `self.accumulator` (typed: the source stores `.dict()` images of the same
values and rebuilds them with `FlightOption(**...)`, a lossless round trip). -/
structure Accumulator where
  weather : Option WeatherSummary
  flights : List FlightOption
  hotels : List HotelOption
  events : List EventOption
  booking : Option BookingResult
  deriving Repr, DecidableEq

/-- The initial accumulator built in `TravelOrchestrator.__init__`. -/
def initAccumulator : Accumulator :=
  { weather := none, flights := [], hotels := [], events := [], booking := none }

/-- Read one accumulator entry. -/
def Accumulator.get (acc : Accumulator) : AccKey → AccVal
  | .weather => .weatherV acc.weather
  | .flights => .flightsV acc.flights
  | .hotels => .hotelsV acc.hotels
  | .events => .eventsV acc.events
  | .booking => .bookingV acc.booking

/-- The keyword arguments of one tool call (`json.loads(tc.function.arguments)`),
already coerced to the types the tool schemas declare; `none` marks an absent
key.  Date-string arguments are carried as ordinals (see the header).
`max_price_per_night` distinguishes absent (`none`) from present-`null`
(`some none`), because the Python `hotels_agent` parameter has no default:
omitting the keyword raises `TypeError`. -/
structure ToolArgs where
  city : Option String := none
  start_date : Option Int := none
  end_date : Option Int := none
  prefs : Option RawPrefs := none
  destination : Option String := none
  checkin : Option Int := none
  checkout : Option Int := none
  rooms : Option Int := none
  max_price_per_night : Option (Option Rat) := none
  currency : Option String := none
  interests : Option (List String) := none
  flight_index : Option Int := none
  hotel_index : Option Int := none
  deriving Repr, DecidableEq

/-- Fetch a required argument: a missing key raises (`KeyError` for
`args["k"]`, `TypeError` for a missing keyword in `f(**args)`; both are
embedded as `keyError`). -/
def reqArg {α : Type} (k : String) : Option α → Except PyErr α
  | some v => .ok v
  | none => .error (.keyError k)

/-- Python list indexing `xs[i]`: negative indices count from the end, any
other out-of-range index raises `IndexError`. -/
def pyIndex {α : Type} (xs : List α) (i : Int) : Except PyErr α :=
  if h : 0 ≤ i ∧ i < xs.length then
    .ok (xs.get ⟨i.toNat, by omega⟩)
  else if h' : -(xs.length : Int) ≤ i ∧ i < 0 then
    .ok (xs.get ⟨(i + xs.length).toNat, by omega⟩)
  else .error .indexError

/-- The result value a tool handler serialises with `json.dumps`. -/
inductive ToolResult where
  | weatherR (w : WeatherSummary)
  | flightsR (fs : List FlightOption)
  | hotelsR (hs : List HotelOption)
  | eventsR (es : List EventOption)
  | bookingR (b : BookingResult)
  deriving Repr, DecidableEq

/-- The accumulator key a tool name writes (`none` for unrecognized names). -/
def keyOf (tool_name : String) : Option AccKey :=
  if tool_name = "call_weather_agent" then some .weather
  else if tool_name = "call_flights_agent" then some .flights
  else if tool_name = "call_hotels_agent" then some .hotels
  else if tool_name = "call_events_agent" then some .events
  else if tool_name = "finalize_booking" then some .booking
  else none

/-- The five recognized tool names. -/
def recognizedTools : List String :=
  ["call_weather_agent", "call_flights_agent", "call_hotels_agent",
   "call_events_agent", "finalize_booking"]

/-- The inner `handle_tool(tool_name, args)` closure of `TravelOrchestrator.run`
(lines 62-95): dispatch on the tool name, run the stub, write the matching
accumulator entry, return the serialised result; unknown names raise
`ValueError(f"Unknown tool: {tool_name}")`. -/
def handle_tool (tool_name : String) (args : ToolArgs) (acc : Accumulator) :
    Except PyErr (Accumulator × ToolResult) :=
  if tool_name = "call_weather_agent" then do
    let city ← reqArg "city" args.city
    let s ← reqArg "start_date" args.start_date
    let e ← reqArg "end_date" args.end_date
    let res := weather_agent city s e
    .ok ({ acc with weather := some res }, .weatherR res)
  else if tool_name = "call_flights_agent" then do
    let raw ← reqArg "prefs" args.prefs
    let prefs ← mkTravelerPrefs raw
    let res := flights_agent prefs
    .ok ({ acc with flights := res }, .flightsR res)
  else if tool_name = "call_hotels_agent" then do
    let dest ← reqArg "destination" args.destination
    let ci ← reqArg "checkin" args.checkin
    let co ← reqArg "checkout" args.checkout
    let rooms ← reqArg "rooms" args.rooms
    let maxp ← reqArg "max_price_per_night" args.max_price_per_night
    let currency ← reqArg "currency" args.currency
    let res := hotels_agent dest ci co rooms maxp currency
    .ok ({ acc with hotels := res }, .hotelsR res)
  else if tool_name = "call_events_agent" then do
    let city ← reqArg "city" args.city
    let s ← reqArg "start_date" args.start_date
    let e ← reqArg "end_date" args.end_date
    let interests := args.interests.getD []
    let res := events_agent city s e interests
    .ok ({ acc with events := res }, .eventsR res)
  else if tool_name = "finalize_booking" then do
    let flights := acc.flights
    let hotels := acc.hotels
    let fi ← reqArg "flight_index" args.flight_index
    let _hi := args.hotel_index.getD 0
    let selected_flight ← pyIndex flights fi
    let selected_hotel ← if hotels.isEmpty then .ok none
                         else (pyIndex hotels _hi).map some
    let res := book_agent selected_flight selected_hotel
    .ok ({ acc with booking := some res }, .bookingR res)
  else .error (.valueError ("Unknown tool: " ++ tool_name))

/-- One tool call requested by the model (`tc.id`, `tc.function.name`,
`json.loads(tc.function.arguments)`). -/
structure ToolCallReq where
  id : String
  name : String
  args : ToolArgs
  deriving Repr, DecidableEq

/-- The `_run_all` gather over `pending` (see header: the stubs never suspend,
so the gather is a left-to-right fold); returns the updated accumulator and
the `outs` list of `(name, output)` pairs in call order. -/
def processTurn : List ToolCallReq → Accumulator →
    Except PyErr (Accumulator × List (String × ToolResult))
  | [], acc => .ok (acc, [])
  | tc :: rest, acc =>
    match handle_tool tc.name tc.args acc with
    | .error e => .error e
    | .ok (acc', r) =>
      match processTurn rest acc' with
      | .error e => .error e
      | .ok (acc'', outs) => .ok (acc'', (tc.name, r) :: outs)

/-- `for n, o in outs: results[n] = o` — build the name-keyed results dict
(later entries overwrite earlier ones). -/
def updateResults : List (String × ToolResult) → (String → Option ToolResult) →
    String → Option ToolResult
  | [], m => m
  | (n, o) :: rest, m => updateResults rest (fun q => if q = n then some o else m q)

/-- A message on the conversation list. -/
inductive Message where
  | system (content : String)
  | user (content : String)
  | initialUser (goal : String) (defaults : TravelerPrefs)
  | assistant (content : String)
  | tool (tool_call_id : String) (name : String) (content : Option ToolResult)
  deriving Repr, DecidableEq

/-- One chat-completion response: the assistant text and the requested tool
calls (`msg.tool_calls`, empty when absent). -/
structure ModelResponse where
  content : String
  tool_calls : List ToolCallReq
  deriving Repr, DecidableEq

/-- The system prompt of `TravelOrchestrator.run`. -/
def sysPrompt : String :=
  "You are a senior travel-planning orchestrator. " ++
  "Plan minimal tool calls, prefer parallelizable requests, and return a cohesive itinerary. " ++
  "When making a plan: summarize, list chosen flight/hotel, include weather overview, key events, " ++
  "and a day-by-day schedule. Keep budgets in the user's currency."

/-- The corrective retry prompt appended after a malformed final answer. -/
def retryPrompt : String :=
  "Please output valid JSON strictly matching the Itinerary schema."

/-- The initial conversation built at the top of `TravelOrchestrator.run`. -/
def initMessages (user_goal : String) (default_prefs : TravelerPrefs) : List Message :=
  [.system sysPrompt, .initialUser user_goal default_prefs]

/-- Conversation plus accumulator: the mutable state of one run. -/
structure OrchState where
  messages : List Message
  acc : Accumulator
  deriving Repr, DecidableEq

/-- Outcome of one iteration of the `for _ in range(8)` loop body. -/
inductive StepResult where
  | finished (it : Itinerary)
  | failed (e : PyErr)
  | next (st : OrchState) (malformedRetry : Bool)
  deriving Repr, DecidableEq

/-- The tool messages appended after a turn: one per requested call, in call
order, carrying `tc.id`, `tc.function.name` and `results[tc.function.name]`. -/
def toolMessages (calls : List ToolCallReq) (results : String → Option ToolResult) :
    List Message :=
  calls.map (fun tc => .tool tc.id tc.name (results tc.name))

/-- One iteration of the loop body (lines 98-142): query the model; with no
tool calls, parse the content as the final `Itinerary` (on failure append the
assistant content and one retry prompt and continue); otherwise run all
requested tools and append one tool message per call. -/
def runStep (parse : String → Option Itinerary)
    (oracle : List Message → ModelResponse) (st : OrchState) : StepResult :=
  let resp := oracle st.messages
  if resp.tool_calls.isEmpty then
    match parse resp.content with
    | some it => .finished it
    | none =>
      .next ⟨st.messages ++ [.assistant resp.content, .user retryPrompt], st.acc⟩ true
  else
    match processTurn resp.tool_calls st.acc with
    | .error e => .failed e
    | .ok (acc', outs) =>
      let results := updateResults outs (fun _ => none)
      .next ⟨st.messages ++ toolMessages resp.tool_calls results, acc'⟩ false

/-- Decidable equality for `Except` results. -/
instance exceptDecEq {ε α : Type} [DecidableEq ε] [DecidableEq α] :
    DecidableEq (Except ε α) := fun x y =>
  match x, y with
  | .ok a, .ok b =>
    if h : a = b then .isTrue (by rw [h]) else .isFalse (by simp [h])
  | .error a, .error b =>
    if h : a = b then .isTrue (by rw [h]) else .isFalse (by simp [h])
  | .ok _, .error _ => .isFalse (by simp)
  | .error _, .ok _ => .isFalse (by simp)

/-- The observable trace of a run: its outcome, final state, number of loop
iterations performed, number of malformed-final retries issued, and whether
the iteration budget was exhausted. -/
structure RunTrace where
  result : Except PyErr Itinerary
  state : OrchState
  iters : Nat
  malformed : Nat
  exhausted : Bool
  deriving Repr, DecidableEq

/-- The `for _ in range(fuel)` loop; with the fuel spent and no itinerary
produced, `raise RuntimeError("Failed to produce itinerary in allotted steps")`. -/
def runLoop (parse : String → Option Itinerary)
    (oracle : List Message → ModelResponse) : Nat → OrchState → RunTrace
  | 0, st =>
    ⟨.error (.runtimeError "Failed to produce itinerary in allotted steps"),
     st, 0, 0, true⟩
  | fuel + 1, st =>
    match runStep parse oracle st with
    | .finished it => ⟨.ok it, st, 1, 0, false⟩
    | .failed e => ⟨.error e, st, 1, 0, false⟩
    | .next st' mal =>
      let t := runLoop parse oracle fuel st'
      ⟨t.result, t.state, t.iters + 1, t.malformed + (if mal then 1 else 0), t.exhausted⟩

namespace TravelOrchestrator

/-- `TravelOrchestrator.run(user_goal, default_prefs)` on a fresh orchestrator:
build the initial messages and run the loop with the hard cap of 8. -/
def run (parse : String → Option Itinerary)
    (oracle : List Message → ModelResponse)
    (user_goal : String) (default_prefs : TravelerPrefs) : RunTrace :=
  runLoop parse oracle 8 ⟨initMessages user_goal default_prefs, initAccumulator⟩

end TravelOrchestrator

/-! ## Theorems -/

/-- C4: for valid dates with `start_date <= end_date`, `weather_agent` returns
`(end-start).days + 1` consecutive calendar days from `start_date` to
`end_date` inclusive, and `highs_c`, `lows_c`, `conditions` all have that same
length. -/
theorem weather_agent_consistent_range (city : String) (s e : Int) (h : s ≤ e) :
    (weather_agent city s e).dates.length = (e - s + 1).toNat ∧
    (weather_agent city s e).highs_c.length = (e - s + 1).toNat ∧
    (weather_agent city s e).lows_c.length = (e - s + 1).toNat ∧
    (weather_agent city s e).conditions.length = (e - s + 1).toNat ∧
    (weather_agent city s e).dates.head? = some s ∧
    (weather_agent city s e).dates.getLast? = some e ∧
    ∀ i : Nat, i + 1 < (weather_agent city s e).dates.length →
      (weather_agent city s e).dates[i + 1]? =
        (weather_agent city s e).dates[i]?.map (· + 1) := by
  have hdays : ((e - s + 1).toNat : Int) = e - s + 1 := Int.toNat_of_nonneg (by omega)
  have hpos : 0 < (e - s + 1).toNat := by omega
  refine ⟨?_, ?_, ?_, ?_, ?_, ?_, ?_⟩
  · simp [weather_agent]
  · simp [weather_agent]
  · simp [weather_agent]
  · simp only [weather_agent, List.length_take, List.length_flatten,
      List.map_replicate, List.sum_replicate, smul_eq_mul,
      List.length_cons, List.length_nil]
    omega
  · simp [weather_agent, List.head?_eq_getElem?, List.getElem?_map,
      List.getElem?_range hpos]
  · simp only [weather_agent, List.getLast?_eq_getElem?, List.length_map,
      List.length_range, List.getElem?_map,
      List.getElem?_range (Nat.sub_lt hpos Nat.one_pos), Option.map_some',
      Option.some.injEq]
    omega
  · intro i hi
    simp only [weather_agent, List.length_map, List.length_range] at hi
    simp only [weather_agent, List.getElem?_map,
      List.getElem?_range (by omega : i + 1 < (e - s + 1).toNat),
      List.getElem?_range (by omega : i < (e - s + 1).toNat),
      Option.map_some', Option.some.injEq]
    push_cast
    ring

/-- C5 fails as stated: the schema accepts a negative `travelers` count
(no constraint beyond `int`), and then `flights_agent` prices are negative.
Concretely, `TravelerPrefs(origin="SFO", destination="YVR",
depart_date="2025-10-10", travelers=-1)` validates, and the first flight
option has `price_total = 480 * (-1) < 0`. -/
theorem flights_agent_negative_price_cex :
    (mkTravelerPrefs
        { origin := some "SFO", destination := some "YVR",
          depart_date := some "2025-10-10", travelers := some (-1) } =
      .ok { origin := "SFO", destination := "YVR", depart_date := "2025-10-10",
            return_date := none, travelers := -1 }) ∧
    ((flights_agent
        { origin := "SFO", destination := "YVR", depart_date := "2025-10-10",
          return_date := none, travelers := -1 }).map FlightOption.price_total =
      [-480, -520]) ∧
    ¬ (∀ f ∈ flights_agent
        { origin := "SFO", destination := "YVR", depart_date := "2025-10-10",
          return_date := none, travelers := -1 }, 0 ≤ f.price_total) := by
  have hmap : (flights_agent
      { origin := "SFO", destination := "YVR", depart_date := "2025-10-10",
        return_date := none, travelers := -1 }).map FlightOption.price_total =
      [-480, -520] := by
    simp only [flights_agent, List.map_cons, List.map_nil]
    norm_num
  refine ⟨by decide, hmap, fun hall => ?_⟩
  have h1 : ∀ p ∈ [(-480 : Rat), -520], 0 ≤ p := by
    rw [← hmap]
    intro p hp
    obtain ⟨f, hf, rfl⟩ := List.mem_map.mp hp
    exact hall f hf
  have := h1 (-480) (by simp)
  norm_num at this

/-- C5 amended: for a non-negative `travelers` count, every `FlightOption`
from `flights_agent` has `price_total >= 0`; for a non-negative `rooms` count,
every `HotelOption` from `hotels_agent` has `price_total >= 0`; and every
`EventOption` from `events_agent` has `price_total >= 0` whenever present
(unconditionally). -/
theorem agents_nonneg_prices (prefs : TravelerPrefs) (htrav : 0 ≤ prefs.travelers)
    (dest : String) (ci co : Int) (rooms : Int) (hrooms : 0 ≤ rooms)
    (maxp : Option Rat) (currency : String)
    (ecity : String) (es ee : Int) (ints : List String) :
    (∀ f ∈ flights_agent prefs, 0 ≤ f.price_total) ∧
    (∀ hot ∈ hotels_agent dest ci co rooms maxp currency, 0 ≤ hot.price_total) ∧
    (∀ ev ∈ events_agent ecity es ee ints, ∀ p, ev.price_total = some p → 0 ≤ p) := by
  have htrav' : (0 : Rat) ≤ (prefs.travelers : Rat) := by exact_mod_cast htrav
  have hrooms' : (0 : Rat) ≤ (rooms : Rat) := by exact_mod_cast hrooms
  refine ⟨?_, ?_, ?_⟩
  · intro f hf
    simp only [flights_agent, List.mem_cons, List.not_mem_nil, or_false] at hf
    rcases hf with rfl | rfl <;> · simp only []; positivity
  · intro hot hhot
    simp only [hotels_agent, List.mem_cons, List.not_mem_nil, or_false] at hhot
    have hn : (0 : Rat) ≤
        (140 : Rat) * ((if (ci - co).natAbs = 0 then 1 else (ci - co).natAbs : Nat) : Rat)
          * (rooms : Rat) := by positivity
    rcases hhot with rfl | rfl
    · exact hn
    · simp only []
      have h11 : (0 : Rat) ≤ (11 : Rat) / 10 := by norm_num
      exact mul_nonneg hn h11
  · intro ev hev p hp
    simp only [events_agent, List.mem_cons, List.not_mem_nil, or_false] at hev
    rcases hev with rfl | rfl <;> simp_all
    subst hp
    norm_num

/-- C5 amended, witness: at `travelers = 2` and `rooms = 1` all returned
prices are non-negative. -/
theorem agents_nonneg_prices_witness :
    (0 : Int) ≤ 2 ∧ (0 : Int) ≤ 1 ∧
    (∀ f ∈ flights_agent
        { origin := "SFO", destination := "YVR", depart_date := "2025-10-10",
          return_date := none, travelers := 2 }, 0 ≤ f.price_total) ∧
    (∀ hot ∈ hotels_agent "YVR" 739169 739173 1 none "USD", 0 ≤ hot.price_total) ∧
    (∀ ev ∈ events_agent "YVR" 739169 739173 ["food"], ∀ p,
        ev.price_total = some p → 0 ≤ p) := by
  have h := agents_nonneg_prices
    { origin := "SFO", destination := "YVR", depart_date := "2025-10-10",
      return_date := none, travelers := 2 } (by decide)
    "YVR" 739169 739173 1 (by decide) none "USD" "YVR" 739169 739173 ["food"]
  exact ⟨by decide, by decide, h.1, h.2.1, h.2.2⟩

/-- C9: `events_agent` depends only on `start_date` — the city, end date and
declared interests have no effect on the returned events. -/
theorem events_agent_depends_only_on_start (s : Int) (c₁ c₂ : String)
    (e₁ e₂ : Int) (i₁ i₂ : List String) :
    events_agent c₁ s e₁ i₁ = events_agent c₂ s e₂ i₂ := rfl


/-! ### Error-class helper lemmas -/

/-- `TravelerPrefs` construction only ever raises a pydantic `ValidationError`. -/
theorem mkTravelerPrefs_error {r : RawPrefs} {e : PyErr}
    (h : mkTravelerPrefs r = .error e) : e = .validationError := by
  cases ho : r.origin <;> cases hd : r.destination <;> cases hdep : r.depart_date <;>
    simp only [mkTravelerPrefs, ho, hd, hdep] at h
  case none.none.none | none.none.some | none.some.none | none.some.some
    | some.none.none | some.none.some | some.some.none =>
    injection h with h'
    exact h'.symm
  case some.some.some o d dep =>
    by_cases hc : (checkDate (some dep) && checkDate (r.return_date.getD none)) = true
    · rw [if_pos hc] at h
      exact absurd h (by simp)
    · rw [if_neg hc] at h
      injection h with h'
      exact h'.symm

/-- `pyIndex` only ever raises `IndexError`. -/
theorem pyIndex_error {α : Type} {xs : List α} {i : Int} {e : PyErr}
    (h : pyIndex xs i = .error e) : e = .indexError := by
  unfold pyIndex at h
  split at h
  · exact absurd h (by simp)
  · split at h
    · exact absurd h (by simp)
    · injection h with h'
      exact h'.symm

/-- An `Except.map` that errors passes the underlying error through. -/
theorem exceptMap_error {α β : Type} {f : α → β} {x : Except PyErr α} {e : PyErr}
    (h : x.map f = .error e) : x = .error e := by
  cases x with
  | error e2 =>
    simp only [Except.map] at h
    injection h with h'
    rw [h']
  | ok a => exact absurd h (by simp [Except.map])

/-- `reqArg` only ever raises the missing-key error. -/
theorem reqArg_error {α : Type} {k : String} {v : Option α} {e : PyErr}
    (h : reqArg k v = .error e) : e = .keyError k := by
  cases v with
  | some a => exact absurd h (by simp [reqArg])
  | none =>
    injection h with h'
    exact h'.symm

/-- C8: constructing a `TravelerPrefs` fails exactly when a required field
(`origin`, `destination`, `depart_date`) is missing, or `depart_date` is not a
valid ISO-8601 date, or `return_date` is non-None and not a valid ISO-8601
date; a None `return_date` is accepted, and accepted date strings are stored
unchanged.  (Wrong-typed field values are excluded by the typed embedding.) -/
theorem mkTravelerPrefs_validation (r : RawPrefs) :
    ((mkTravelerPrefs r).isOk = false ↔
      (r.origin = none ∨ r.destination = none ∨ r.depart_date = none ∨
       (∃ d, r.depart_date = some d ∧ validISODate d = false) ∨
       (∃ rd, r.return_date.getD none = some rd ∧ validISODate rd = false)))
  ∧ (∀ p, mkTravelerPrefs r = .ok p →
      some p.depart_date = r.depart_date ∧ p.return_date = r.return_date.getD none) := by
  constructor
  · cases ho : r.origin with
    | none => simp [mkTravelerPrefs, ho, Except.isOk, Except.toBool]
    | some o =>
      cases hd : r.destination with
      | none => simp [mkTravelerPrefs, ho, hd, Except.isOk, Except.toBool]
      | some d =>
        cases hdep : r.depart_date with
        | none => simp [mkTravelerPrefs, ho, hd, hdep, Except.isOk, Except.toBool]
        | some dep =>
          simp only [mkTravelerPrefs, ho, hd, hdep]
          by_cases h1 : validISODate dep
          · cases hret : r.return_date.getD none with
            | none => simp [checkDate, h1, hret, Except.isOk, Except.toBool]
            | some rd =>
              by_cases h2 : validISODate rd
              · simp [checkDate, h1, hret, h2, Except.isOk, Except.toBool]
              · simp [checkDate, h1, hret, h2, Except.isOk, Except.toBool]
          · simp [checkDate, h1, Except.isOk, Except.toBool, Bool.eq_false_iff.mpr h1]
  · intro p hp
    cases ho : r.origin <;> cases hd : r.destination <;> cases hdep : r.depart_date <;>
      simp only [mkTravelerPrefs, ho, hd, hdep] at hp
    case none.none.none | none.none.some | none.some.none | none.some.some
      | some.none.none | some.none.some | some.some.none =>
      exact absurd hp (by simp)
    case some.some.some o d dep =>
      by_cases hc : (checkDate (some dep) && checkDate (r.return_date.getD none)) = true
      · rw [if_pos hc] at hp
        injection hp with hp'
        subst hp'
        exact ⟨rfl, rfl⟩
      · rw [if_neg hc] at hp
        exact absurd hp (by simp)

/-- C8, witness: a raw record with all three required fields, a valid
`depart_date` and an absent `return_date` is accepted, and its date strings
are stored unchanged. -/
theorem mkTravelerPrefs_validation_witness :
    some (({ origin := "SFO", destination := "YVR", depart_date := "2025-10-10",
             return_date := none } : TravelerPrefs)).depart_date =
      ({ origin := some "SFO", destination := some "YVR",
         depart_date := some "2025-10-10" } : RawPrefs).depart_date ∧
    (({ origin := "SFO", destination := "YVR", depart_date := "2025-10-10",
        return_date := none } : TravelerPrefs)).return_date =
      ({ origin := some "SFO", destination := some "YVR",
         depart_date := some "2025-10-10" } : RawPrefs).return_date.getD none :=
  (mkTravelerPrefs_validation
    { origin := some "SFO", destination := some "YVR",
      depart_date := some "2025-10-10" }).2
    { origin := "SFO", destination := "YVR", depart_date := "2025-10-10",
      return_date := none }
    (by decide)

/-- C3 fails as stated: an unrecognized tool name raises a Python
`ValueError("Unknown tool: ...")`, not a `RuntimeError`.  Concretely,
dispatching the name `"book_tool"` yields the `ValueError`, and that error is
not a RuntimeError. -/
theorem unknown_tool_not_runtimeerror_cex :
    handle_tool "book_tool" {} initAccumulator =
      .error (.valueError "Unknown tool: book_tool") ∧
    (PyErr.valueError "Unknown tool: book_tool").isRuntimeError = false := by
  exact ⟨by decide, rfl⟩

/-- C3 amended: dispatching an unrecognized tool name raises
`ValueError(f"Unknown tool: {name}")` — a `ValueError`, not a `RuntimeError` —
and for every recognized name no `RuntimeError` is raised by the dispatch
itself (its possible errors are missing-argument errors, pydantic
`ValidationError` — itself a `ValueError` subclass — and `IndexError`). -/
theorem handle_tool_unknown_dispatch (name : String) (args : ToolArgs)
    (acc : Accumulator) :
    (name ∉ recognizedTools →
      handle_tool name args acc = .error (.valueError ("Unknown tool: " ++ name)) ∧
      (PyErr.valueError ("Unknown tool: " ++ name)).isValueError = true ∧
      (PyErr.valueError ("Unknown tool: " ++ name)).isRuntimeError = false)
  ∧ (name ∈ recognizedTools → ∀ e, handle_tool name args acc = .error e →
      e.isRuntimeError = false) := by
  constructor
  · intro hout
    simp only [recognizedTools, List.mem_cons, List.not_mem_nil, or_false,
      not_or] at hout
    obtain ⟨h1, h2, h3, h4, h5⟩ := hout
    refine ⟨?_, rfl, rfl⟩
    simp [handle_tool, h1, h2, h3, h4, h5]
  · intro hin e he
    simp only [recognizedTools, List.mem_cons, List.not_mem_nil, or_false] at hin
    rcases hin with rfl | rfl | rfl | rfl | rfl
    · simp only [handle_tool, if_pos rfl] at he
      cases hc : args.city <;> cases hs : args.start_date <;>
        cases hend : args.end_date <;>
        simp only [hc, hs, hend, reqArg, bind, Except.bind] at he <;>
        first
        | (injection he with he'; subst he'; rfl)
        | exact absurd he (by simp)
    · rw [show handle_tool "call_flights_agent" args acc =
          (do
            let raw ← reqArg "prefs" args.prefs
            let prefs ← mkTravelerPrefs raw
            let res := flights_agent prefs
            .ok ({ acc with flights := res }, .flightsR res)) from by
          simp [handle_tool]] at he
      cases hpr : args.prefs with
      | none =>
        simp only [hpr, reqArg, bind, Except.bind] at he
        injection he with he'
        subst he'
        rfl
      | some raw =>
        simp only [hpr, reqArg, bind, Except.bind] at he
        cases hm : mkTravelerPrefs raw with
        | error e2 =>
          rw [hm] at he
          injection he with he'
          subst he'
          rw [mkTravelerPrefs_error hm]
          rfl
        | ok prefs =>
          rw [hm] at he
          exact absurd he (by simp)
    · rw [show handle_tool "call_hotels_agent" args acc =
          (do
            let dest ← reqArg "destination" args.destination
            let ci ← reqArg "checkin" args.checkin
            let co ← reqArg "checkout" args.checkout
            let rooms ← reqArg "rooms" args.rooms
            let maxp ← reqArg "max_price_per_night" args.max_price_per_night
            let currency ← reqArg "currency" args.currency
            let res := hotels_agent dest ci co rooms maxp currency
            .ok ({ acc with hotels := res }, .hotelsR res)) from by
          simp [handle_tool]] at he
      cases hd : args.destination <;> cases hci : args.checkin <;>
        cases hco : args.checkout <;> cases hro : args.rooms <;>
        cases hmp : args.max_price_per_night <;> cases hcu : args.currency <;>
        simp only [hd, hci, hco, hro, hmp, hcu, reqArg, bind, Except.bind] at he <;>
        first
        | (injection he with he'; subst he'; rfl)
        | exact absurd he (by simp)
    · rw [show handle_tool "call_events_agent" args acc =
          (do
            let city ← reqArg "city" args.city
            let s ← reqArg "start_date" args.start_date
            let e ← reqArg "end_date" args.end_date
            let interests := args.interests.getD []
            let res := events_agent city s e interests
            .ok ({ acc with events := res }, .eventsR res)) from by
          simp [handle_tool]] at he
      cases hc : args.city <;> cases hs : args.start_date <;>
        cases hend : args.end_date <;>
        simp only [hc, hs, hend, reqArg, bind, Except.bind] at he <;>
        first
        | (injection he with he'; subst he'; rfl)
        | exact absurd he (by simp)
    · rw [show handle_tool "finalize_booking" args acc =
          (do
            let fi ← reqArg "flight_index" args.flight_index
            let _hi := args.hotel_index.getD 0
            let selected_flight ← pyIndex acc.flights fi
            let selected_hotel ← if acc.hotels.isEmpty then .ok none
                                 else (pyIndex acc.hotels _hi).map some
            let res := book_agent selected_flight selected_hotel
            .ok ({ acc with booking := some res }, .bookingR res)) from by
          simp [handle_tool]] at he
      cases hfi : args.flight_index with
      | none =>
        simp only [hfi, reqArg, bind, Except.bind] at he
        injection he with he'
        subst he'
        rfl
      | some fi =>
        simp only [hfi, reqArg, bind, Except.bind] at he
        split at he
        · next e2 hidx =>
            injection he with he'
            subst he'
            rw [pyIndex_error hidx]
            rfl
        · next f hidx =>
            split at he
            · exact absurd he (by simp)
            · split at he
              · next e3 hmap =>
                  injection he with he'
                  subst he'
                  rw [pyIndex_error (exceptMap_error hmap)]
                  rfl
              · exact absurd he (by simp)

/-- C3 amended, witness: `"book_tool"` is unrecognized and raises the
`ValueError`; `"call_weather_agent"` is recognized and its failing dispatch
on empty arguments raises an error that is not a RuntimeError. -/
theorem handle_tool_unknown_dispatch_witness :
    (handle_tool "book_tool" {} initAccumulator =
        .error (.valueError "Unknown tool: book_tool") ∧
      (PyErr.valueError "Unknown tool: book_tool").isValueError = true ∧
      (PyErr.valueError "Unknown tool: book_tool").isRuntimeError = false) ∧
    (PyErr.keyError "city").isRuntimeError = false :=
  ⟨(handle_tool_unknown_dispatch "book_tool" {} initAccumulator).1 (by decide),
   (handle_tool_unknown_dispatch "call_weather_agent" {} initAccumulator).2
    (by decide) (.keyError "city") (by decide)⟩

/-- A sample validated preference record (the example usage in
`travel-orchestrator.py`, simplified). -/
def samplePrefs : TravelerPrefs :=
  { origin := "SFO", destination := "YVR", depart_date := "2025-10-10",
    return_date := none, travelers := 2 }

/-- An accumulator holding the stub flight options and no hotels. -/
def sampleFlightsAcc : Accumulator :=
  { initAccumulator with flights := flights_agent samplePrefs }

/-- C10: when `finalize_booking` is requested with a valid `flight_index` and
no hotels accumulated, it succeeds, the booking has `hotel_booking_id = None`
and status `"PENDING_CONFIRMATION"`, and the result does not depend on the
`hotel_index` argument. -/
theorem finalize_booking_no_hotels (acc : Accumulator) (args : ToolArgs) (fi : Int)
    (hfi : args.flight_index = some fi) (h0 : 0 ≤ fi)
    (hlt : fi < (acc.flights.length : Int)) (hh : acc.hotels = []) :
    (∃ f, pyIndex acc.flights fi = .ok f ∧
      handle_tool "finalize_booking" args acc =
        .ok ({ acc with booking := some (book_agent f none) },
             .bookingR (book_agent f none)) ∧
      (book_agent f none).hotel_booking_id = none ∧
      (book_agent f none).status = "PENDING_CONFIRMATION")
  ∧ ∀ hi : Option Int,
      handle_tool "finalize_booking" { args with hotel_index := hi } acc =
        handle_tool "finalize_booking" args acc := by
  have hemp : acc.hotels.isEmpty = true := by simp [hh]
  have hlt' : fi.toNat < acc.flights.length := by omega
  have hidx : pyIndex acc.flights fi = .ok (acc.flights.get ⟨fi.toNat, hlt'⟩) := by
    unfold pyIndex
    rw [dif_pos ⟨h0, hlt⟩]
  constructor
  · refine ⟨acc.flights.get ⟨fi.toNat, hlt'⟩, hidx, ?_, rfl, rfl⟩
    simp [handle_tool, reqArg, hfi, hidx, hemp, bind, Except.bind]
  · intro hi
    simp [handle_tool, reqArg, hfi, hidx, hemp, bind, Except.bind]

/-- C10, witness: with the two stub flights accumulated and no hotels,
`finalize_booking(flight_index=0)` succeeds with a hotel-less pending
booking, independently of `hotel_index`. -/
theorem finalize_booking_no_hotels_witness :
    ((0 : Int) ≤ 0 ∧ (0 : Int) < (sampleFlightsAcc.flights.length : Int) ∧
      sampleFlightsAcc.hotels = []) ∧
    (∃ f, pyIndex sampleFlightsAcc.flights 0 = .ok f ∧
      handle_tool "finalize_booking" { flight_index := some 0 } sampleFlightsAcc =
        .ok ({ sampleFlightsAcc with booking := some (book_agent f none) },
             .bookingR (book_agent f none)) ∧
      (book_agent f none).hotel_booking_id = none ∧
      (book_agent f none).status = "PENDING_CONFIRMATION") ∧
    ∀ hi : Option Int,
      handle_tool "finalize_booking" { flight_index := some 0, hotel_index := hi }
          sampleFlightsAcc =
        handle_tool "finalize_booking" { flight_index := some 0 } sampleFlightsAcc := by
  have h := finalize_booking_no_hotels sampleFlightsAcc { flight_index := some 0 } 0
    rfl (by decide) (by decide) rfl
  exact ⟨⟨by decide, by decide, rfl⟩, h.1, h.2⟩


/-- C4, witness: a concrete four-day range. -/
theorem weather_agent_consistent_range_witness :
    (10 : Int) ≤ 13 ∧
    ((weather_agent "V" 10 13).dates.length = ((13 : Int) - 10 + 1).toNat ∧
     (weather_agent "V" 10 13).highs_c.length = ((13 : Int) - 10 + 1).toNat ∧
     (weather_agent "V" 10 13).lows_c.length = ((13 : Int) - 10 + 1).toNat ∧
     (weather_agent "V" 10 13).conditions.length = ((13 : Int) - 10 + 1).toNat ∧
     (weather_agent "V" 10 13).dates.head? = some 10 ∧
     (weather_agent "V" 10 13).dates.getLast? = some 13 ∧
     ∀ i : Nat, i + 1 < (weather_agent "V" 10 13).dates.length →
       (weather_agent "V" 10 13).dates[i + 1]? =
         (weather_agent "V" 10 13).dates[i]?.map (· + 1)) :=
  ⟨by decide, weather_agent_consistent_range "V" 10 13 (by decide)⟩

/-! ### Turn-processing lemmas -/

/-- A successful turn executes every requested tool: the `outs` list carries
exactly the requested tool names, in call order. -/
theorem processTurn_names :
    ∀ (calls : List ToolCallReq) (acc acc' : Accumulator)
      (outs : List (String × ToolResult)),
      processTurn calls acc = .ok (acc', outs) →
      outs.map Prod.fst = calls.map ToolCallReq.name := by
  intro calls
  induction calls with
  | nil =>
    intro acc acc' outs h
    simp only [processTurn] at h
    injection h with h'
    have h2 := congrArg Prod.snd h'
    simp only at h2
    rw [← h2]
    simp
  | cons tc cs ih =>
    intro acc acc' outs h
    simp only [processTurn] at h
    split at h
    · exact absurd h (by simp)
    · split at h
      · exact absurd h (by simp)
      · injection h with h'
        have h2 := congrArg Prod.snd h'
        simp only at h2
        rw [← h2]
        simp only [List.map_cons, List.cons.injEq, true_and]
        exact ih _ _ _ (by assumption)

/-- A name not written later keeps its earlier `results` entry. -/
theorem updateResults_not_mem :
    ∀ (outs : List (String × ToolResult)) (m : String → Option ToolResult)
      (n : String), n ∉ outs.map Prod.fst → updateResults outs m n = m n := by
  intro outs
  induction outs with
  | nil => intro m n _; rfl
  | cons p ps ih =>
    intro m n hn
    simp only [List.map_cons, List.mem_cons, not_or] at hn
    obtain ⟨hn1, hn2⟩ := hn
    simp only [updateResults]
    rw [ih _ n hn2]
    simp [hn1]

/-- With pairwise-distinct tool names, the per-call tool messages built from
the name-keyed `results` dict carry each call's own output. -/
theorem toolMessages_zip :
    ∀ (calls : List ToolCallReq) (outs : List (String × ToolResult))
      (m : String → Option ToolResult),
      outs.map Prod.fst = calls.map ToolCallReq.name →
      (calls.map ToolCallReq.name).Nodup →
      toolMessages calls (updateResults outs m) =
        List.zipWith (fun tc o => Message.tool tc.id tc.name (some o.2)) calls outs := by
  intro calls
  induction calls with
  | nil =>
    intro outs m hmap _
    have houts : outs = [] := by
      cases outs with
      | nil => rfl
      | cons p ps => simp at hmap
    subst houts
    rfl
  | cons tc cs ih =>
    intro outs m hmap hnd
    cases outs with
    | nil => simp at hmap
    | cons p ps =>
      simp only [List.map_cons, List.cons.injEq] at hmap
      obtain ⟨hp1, hps⟩ := hmap
      simp only [List.map_cons, List.nodup_cons] at hnd
      obtain ⟨hnotin, hnd'⟩ := hnd
      simp only [toolMessages, List.map_cons, List.zipWith_cons_cons, updateResults]
      congr 1
      · have hnot : tc.name ∉ ps.map Prod.fst := by rw [hps]; exact hnotin
        rw [updateResults_not_mem ps _ tc.name hnot]
        simp [hp1]
      · exact ih ps _ hps hnd'

/-- The recognized tool name that writes a given accumulator key. -/
def nameOfKey : AccKey → String
  | .weather => "call_weather_agent"
  | .flights => "call_flights_agent"
  | .hotels => "call_hotels_agent"
  | .events => "call_events_agent"
  | .booking => "finalize_booking"

/-- A tool name writing key `k` is the recognized name of `k`. -/
theorem keyOf_eq_some {n : String} {k : AccKey} (h : keyOf n = some k) :
    n = nameOfKey k := by
  unfold keyOf at h
  by_cases c1 : n = "call_weather_agent"
  · rw [if_pos c1] at h
    injection h with h'
    subst h'
    exact c1
  · rw [if_neg c1] at h
    by_cases c2 : n = "call_flights_agent"
    · rw [if_pos c2] at h
      injection h with h'
      subst h'
      exact c2
    · rw [if_neg c2] at h
      by_cases c3 : n = "call_hotels_agent"
      · rw [if_pos c3] at h
        injection h with h'
        subst h'
        exact c3
      · rw [if_neg c3] at h
        by_cases c4 : n = "call_events_agent"
        · rw [if_pos c4] at h
          injection h with h'
          subst h'
          exact c4
        · rw [if_neg c4] at h
          by_cases c5 : n = "finalize_booking"
          · rw [if_pos c5] at h
            injection h with h'
            subst h'
            exact c5
          · rw [if_neg c5] at h
            exact absurd h (by simp)

/-- Two distinct tool names never write the same accumulator key. -/
theorem keyOf_inj {n₁ n₂ : String} {k : AccKey}
    (h₁ : keyOf n₁ = some k) (h₂ : keyOf n₂ = some k) : n₁ = n₂ :=
  (keyOf_eq_some h₁).trans (keyOf_eq_some h₂).symm

/-- C6 fails as stated: one turn may request the same tool twice, and then the
corresponding accumulator key is written twice.  Concretely, a turn of two
`call_weather_agent` calls writes the `weather` entry twice — first to the
first call's summary, then to the second's, which differ. -/
theorem accumulator_double_write_cex :
    (handle_tool "call_weather_agent"
        { city := some "X", start_date := some 0, end_date := some 0 }
        initAccumulator =
      .ok ({ initAccumulator with weather := some (weather_agent "X" 0 0) },
           .weatherR (weather_agent "X" 0 0))) ∧
    (handle_tool "call_weather_agent"
        { city := some "X", start_date := some 0, end_date := some 1 }
        { initAccumulator with weather := some (weather_agent "X" 0 0) } =
      .ok ({ initAccumulator with weather := some (weather_agent "X" 0 1) },
           .weatherR (weather_agent "X" 0 1))) ∧
    (processTurn
        [⟨"id1", "call_weather_agent",
          { city := some "X", start_date := some 0, end_date := some 0 }⟩,
         ⟨"id2", "call_weather_agent",
          { city := some "X", start_date := some 0, end_date := some 1 }⟩]
        initAccumulator =
      .ok ({ initAccumulator with weather := some (weather_agent "X" 0 1) },
           [("call_weather_agent", .weatherR (weather_agent "X" 0 0)),
            ("call_weather_agent", .weatherR (weather_agent "X" 0 1))])) ∧
    some (weather_agent "X" 0 0) ≠ some (weather_agent "X" 0 1) ∧
    ([(⟨"id1", "call_weather_agent",
        { city := some "X", start_date := some 0, end_date := some 0 }⟩ : ToolCallReq),
      ⟨"id2", "call_weather_agent",
        { city := some "X", start_date := some 0, end_date := some 1 }⟩].filter
        (fun tc => keyOf tc.name = some .weather)).length = 2 := by
  refine ⟨rfl, rfl, rfl, ?_, by decide⟩
  intro h
  injection h with h'
  have hlen := congrArg (fun w => w.dates.length) h'
  revert hlen
  decide

/-- C6 amended: each successfully handled tool call writes only the
accumulator entry of its own tool and leaves every other entry unchanged;
hence, in a turn whose requested tool names are pairwise distinct, each
accumulator key is written at most once (a turn repeating a tool name writes
that key once per repetition). -/
theorem accumulator_write_discipline :
    (∀ (name : String) (args : ToolArgs) (acc acc' : Accumulator) (r : ToolResult),
      handle_tool name args acc = .ok (acc', r) →
      ∀ k : AccKey, keyOf name ≠ some k → acc'.get k = acc.get k)
  ∧ (∀ calls : List ToolCallReq, (calls.map ToolCallReq.name).Nodup →
      ∀ k : AccKey,
        (calls.filter (fun tc => keyOf tc.name = some k)).length ≤ 1) := by
  constructor
  · intro name args acc acc' r he k hk
    by_cases h1 : name = "call_weather_agent"
    · subst h1
      rw [show handle_tool "call_weather_agent" args acc =
          (do
            let city ← reqArg "city" args.city
            let s ← reqArg "start_date" args.start_date
            let e ← reqArg "end_date" args.end_date
            let res := weather_agent city s e
            .ok ({ acc with weather := some res }, .weatherR res)) from by
          simp [handle_tool]] at he
      cases hc : args.city <;> cases hs : args.start_date <;>
        cases hend : args.end_date <;>
        simp only [hc, hs, hend, reqArg, bind, Except.bind] at he <;>
        first
        | (injection he with he'
           have hA := congrArg Prod.fst he'
           simp only at hA
           subst hA
           cases k with
           | weather => exact absurd (by decide) hk
           | flights => rfl
           | hotels => rfl
           | events => rfl
           | booking => rfl)
        | exact absurd he (by simp)
    · by_cases h2 : name = "call_flights_agent"
      · subst h2
        rw [show handle_tool "call_flights_agent" args acc =
            (do
              let raw ← reqArg "prefs" args.prefs
              let prefs ← mkTravelerPrefs raw
              let res := flights_agent prefs
              .ok ({ acc with flights := res }, .flightsR res)) from by
            simp [handle_tool]] at he
        cases hpr : args.prefs <;>
          simp only [hpr, reqArg, bind, Except.bind] at he
        · exact absurd he (by simp)
        · split at he
          · exact absurd he (by simp)
          · injection he with he'
            have hA := congrArg Prod.fst he'
            simp only at hA
            subst hA
            cases k with
            | flights => exact absurd (by decide) hk
            | weather => rfl
            | hotels => rfl
            | events => rfl
            | booking => rfl
      · by_cases h3 : name = "call_hotels_agent"
        · subst h3
          rw [show handle_tool "call_hotels_agent" args acc =
              (do
                let dest ← reqArg "destination" args.destination
                let ci ← reqArg "checkin" args.checkin
                let co ← reqArg "checkout" args.checkout
                let rooms ← reqArg "rooms" args.rooms
                let maxp ← reqArg "max_price_per_night" args.max_price_per_night
                let currency ← reqArg "currency" args.currency
                let res := hotels_agent dest ci co rooms maxp currency
                .ok ({ acc with hotels := res }, .hotelsR res)) from by
              simp [handle_tool]] at he
          cases hd : args.destination <;> cases hci : args.checkin <;>
            cases hco : args.checkout <;> cases hro : args.rooms <;>
            cases hmp : args.max_price_per_night <;> cases hcu : args.currency <;>
            simp only [hd, hci, hco, hro, hmp, hcu, reqArg, bind,
              Except.bind] at he <;>
            first
            | (injection he with he'
               have hA := congrArg Prod.fst he'
               simp only at hA
               subst hA
               cases k with
               | hotels => exact absurd (by decide) hk
               | weather => rfl
               | flights => rfl
               | events => rfl
               | booking => rfl)
            | exact absurd he (by simp)
        · by_cases h4 : name = "call_events_agent"
          · subst h4
            rw [show handle_tool "call_events_agent" args acc =
                (do
                  let city ← reqArg "city" args.city
                  let s ← reqArg "start_date" args.start_date
                  let e ← reqArg "end_date" args.end_date
                  let interests := args.interests.getD []
                  let res := events_agent city s e interests
                  .ok ({ acc with events := res }, .eventsR res)) from by
                simp [handle_tool]] at he
            cases hc : args.city <;> cases hs : args.start_date <;>
              cases hend : args.end_date <;>
              simp only [hc, hs, hend, reqArg, bind, Except.bind] at he <;>
              first
              | (injection he with he'
                 have hA := congrArg Prod.fst he'
                 simp only at hA
                 subst hA
                 cases k with
                 | events => exact absurd (by decide) hk
                 | weather => rfl
                 | flights => rfl
                 | hotels => rfl
                 | booking => rfl)
              | exact absurd he (by simp)
          · by_cases h5 : name = "finalize_booking"
            · subst h5
              rw [show handle_tool "finalize_booking" args acc =
                  (do
                    let fi ← reqArg "flight_index" args.flight_index
                    let _hi := args.hotel_index.getD 0
                    let selected_flight ← pyIndex acc.flights fi
                    let selected_hotel ← if acc.hotels.isEmpty then .ok none
                                         else (pyIndex acc.hotels _hi).map some
                    let res := book_agent selected_flight selected_hotel
                    .ok ({ acc with booking := some res }, .bookingR res)) from by
                  simp [handle_tool]] at he
              cases hfi : args.flight_index <;>
                simp only [hfi, reqArg, bind, Except.bind] at he
              · exact absurd he (by simp)
              · split at he
                · exact absurd he (by simp)
                · split at he
                  · injection he with he'
                    have hA := congrArg Prod.fst he'
                    simp only at hA
                    subst hA
                    cases k with
                    | booking => exact absurd (by decide) hk
                    | weather => rfl
                    | flights => rfl
                    | hotels => rfl
                    | events => rfl
                  · split at he
                    · exact absurd he (by simp)
                    · injection he with he'
                      have hA := congrArg Prod.fst he'
                      simp only at hA
                      subst hA
                      cases k with
                      | booking => exact absurd (by decide) hk
                      | weather => rfl
                      | flights => rfl
                      | hotels => rfl
                      | events => rfl
            · rw [show handle_tool name args acc =
                  .error (.valueError ("Unknown tool: " ++ name)) from by
                  simp [handle_tool, h1, h2, h3, h4, h5]] at he
              exact absurd he (by simp)
  · intro calls
    induction calls with
    | nil => intro _ k; simp
    | cons tc cs ih =>
      intro hnd k
      simp only [List.map_cons, List.nodup_cons] at hnd
      obtain ⟨hnotin, hnd'⟩ := hnd
      by_cases hk : keyOf tc.name = some k
      · have hzero : cs.filter (fun tc' => keyOf tc'.name = some k) = [] := by
          rw [List.filter_eq_nil_iff]
          intro tc' htc' hkeq
          rw [decide_eq_true_iff] at hkeq
          exact hnotin
            (keyOf_inj hkeq hk ▸ List.mem_map_of_mem ToolCallReq.name htc')
        simp [List.filter_cons, hk, hzero]
      · simp only [List.filter_cons, decide_eq_true_iff]
        rw [if_neg hk]
        exact ih hnd' k

/-- C6 amended, witness: a successful weather call leaves the `flights` entry
unchanged, and in a turn of two distinct tools each key is written at most
once. -/
theorem accumulator_write_discipline_witness :
    (({ initAccumulator with weather := some (weather_agent "X" 0 0) } :
        Accumulator).get .flights = initAccumulator.get .flights) ∧
    ([(⟨"id1", "call_weather_agent",
        { city := some "X", start_date := some 0, end_date := some 0 }⟩ : ToolCallReq),
      ⟨"id2", "call_events_agent",
        { city := some "X", start_date := some 0, end_date := some 0 }⟩].filter
        (fun tc => keyOf tc.name = some .weather)).length ≤ 1 :=
  ⟨accumulator_write_discipline.1 "call_weather_agent"
      { city := some "X", start_date := some 0, end_date := some 0 }
      initAccumulator _ _ rfl .flights (by decide),
   accumulator_write_discipline.2
      [⟨"id1", "call_weather_agent",
        { city := some "X", start_date := some 0, end_date := some 0 }⟩,
       ⟨"id2", "call_events_agent",
        { city := some "X", start_date := some 0, end_date := some 0 }⟩]
      (by decide) .weather⟩

/-! ### Concrete fixtures for run-loop claims -/

/-- An oracle that always answers with plain content and no tool calls. -/
def finalOracle (content : String) : List Message → ModelResponse :=
  fun _ => ⟨content, []⟩

/-- An oracle that always requests the given tool calls. -/
def turnOracle (calls : List ToolCallReq) : List Message → ModelResponse :=
  fun _ => ⟨"", calls⟩

/-- The state at the top of a fresh run. -/
def startState : OrchState := ⟨initMessages "plan a trip" samplePrefs, initAccumulator⟩

/-- C7 fails as stated: the `results` dict is keyed by tool *name*, so when a
turn requests the same tool twice, every message for that name carries the
result of the *last* same-named call.  Concretely, for a turn of two
`call_weather_agent` calls the first call produces the one-day summary, but
its tool message carries the second call's two-day summary. -/
theorem tool_message_wrong_result_cex :
    (processTurn
        [⟨"id1", "call_weather_agent",
          { city := some "X", start_date := some 0, end_date := some 0 }⟩,
         ⟨"id2", "call_weather_agent",
          { city := some "X", start_date := some 0, end_date := some 1 }⟩]
        startState.acc =
      .ok ({ initAccumulator with weather := some (weather_agent "X" 0 1) },
           [("call_weather_agent", .weatherR (weather_agent "X" 0 0)),
            ("call_weather_agent", .weatherR (weather_agent "X" 0 1))])) ∧
    runStep (fun _ => none)
        (turnOracle
          [⟨"id1", "call_weather_agent",
            { city := some "X", start_date := some 0, end_date := some 0 }⟩,
           ⟨"id2", "call_weather_agent",
            { city := some "X", start_date := some 0, end_date := some 1 }⟩])
        startState =
      .next ⟨startState.messages ++
          [.tool "id1" "call_weather_agent" (some (.weatherR (weather_agent "X" 0 1))),
           .tool "id2" "call_weather_agent" (some (.weatherR (weather_agent "X" 0 1)))],
        { initAccumulator with weather := some (weather_agent "X" 0 1) }⟩ false ∧
    ToolResult.weatherR (weather_agent "X" 0 0) ≠
      ToolResult.weatherR (weather_agent "X" 0 1) := by
  refine ⟨rfl, rfl, ?_⟩
  intro h
  injection h with h'
  have hlen := congrArg (fun w => w.dates.length) h'
  revert hlen
  decide

/-- C7 amended: after a model turn whose requested tools all succeed, every
requested tool is executed (the outputs carry the requested names in call
order) and exactly one `tool` message is appended per call, in call order,
with that call's `tool_call_id`; the message content is the `results` entry
of the call's *name*, which is the call's own result whenever the turn's tool
names are pairwise distinct. -/
theorem runStep_tool_messages (parse : String → Option Itinerary)
    (oracle : List Message → ModelResponse) (st : OrchState)
    (acc' : Accumulator) (outs : List (String × ToolResult))
    (hne : (oracle st.messages).tool_calls ≠ [])
    (hp : processTurn (oracle st.messages).tool_calls st.acc = .ok (acc', outs))
    (hnd : ((oracle st.messages).tool_calls.map ToolCallReq.name).Nodup) :
    runStep parse oracle st =
      .next ⟨st.messages ++ List.zipWith
          (fun tc o => Message.tool tc.id tc.name (some o.2))
          (oracle st.messages).tool_calls outs, acc'⟩ false
  ∧ outs.map Prod.fst = (oracle st.messages).tool_calls.map ToolCallReq.name := by
  have hnames := processTurn_names _ _ _ _ hp
  refine ⟨?_, hnames⟩
  have hempty : (oracle st.messages).tool_calls.isEmpty = false := by
    cases hcalls : (oracle st.messages).tool_calls with
    | nil => exact absurd hcalls hne
    | cons a l => rfl
  simp only [runStep, hempty, Bool.false_eq_true, if_false, hp]
  rw [toolMessages_zip _ _ _ hnames hnd]

/-- C7 amended, witness: a turn of one weather call and one events call
(distinct names) appends exactly two tool messages, in order, each with its
own call's id and result. -/
theorem runStep_tool_messages_witness :
    runStep (fun _ => none)
        (turnOracle
          [⟨"idA", "call_weather_agent",
            { city := some "X", start_date := some 0, end_date := some 0 }⟩,
           ⟨"idB", "call_events_agent",
            { city := some "Y", start_date := some 5, end_date := some 6 }⟩])
        startState =
      .next ⟨startState.messages ++
          [.tool "idA" "call_weather_agent" (some (.weatherR (weather_agent "X" 0 0))),
           .tool "idB" "call_events_agent"
             (some (.eventsR (events_agent "Y" 5 6 [])))],
        { initAccumulator with weather := some (weather_agent "X" 0 0),
                               events := events_agent "Y" 5 6 [] }⟩ false ∧
    [("call_weather_agent", ToolResult.weatherR (weather_agent "X" 0 0)),
     ("call_events_agent", ToolResult.eventsR (events_agent "Y" 5 6 []))].map
        Prod.fst =
      ["call_weather_agent", "call_events_agent"] :=
  runStep_tool_messages (fun _ => none)
    (turnOracle
      [⟨"idA", "call_weather_agent",
        { city := some "X", start_date := some 0, end_date := some 0 }⟩,
       ⟨"idB", "call_events_agent",
        { city := some "Y", start_date := some 5, end_date := some 6 }⟩])
    startState
    { initAccumulator with weather := some (weather_agent "X" 0 0),
                           events := events_agent "Y" 5 6 [] }
    [("call_weather_agent", .weatherR (weather_agent "X" 0 0)),
     ("call_events_agent", .eventsR (events_agent "Y" 5 6 []))]
    (by decide) rfl (by decide)

/-! ### Loop-bound lemmas -/

/-- The loop body runs at most `fuel` times. -/
theorem runLoop_iters_le (parse : String → Option Itinerary)
    (oracle : List Message → ModelResponse) :
    ∀ (fuel : Nat) (st : OrchState),
      (runLoop parse oracle fuel st).iters ≤ fuel := by
  intro fuel
  induction fuel with
  | zero => intro st; simp [runLoop]
  | succ n ih =>
    intro st
    simp only [runLoop]
    cases hstep : runStep parse oracle st with
    | finished it => simp
    | failed e => simp
    | next st2 mal =>
      simp only []
      have h := ih st2
      omega

/-- A run that exhausts its fuel without producing an itinerary ends in the
budget `RuntimeError`. -/
theorem runLoop_exhausted_result (parse : String → Option Itinerary)
    (oracle : List Message → ModelResponse) :
    ∀ (fuel : Nat) (st : OrchState),
      (runLoop parse oracle fuel st).exhausted = true →
      (runLoop parse oracle fuel st).result =
        .error (.runtimeError "Failed to produce itinerary in allotted steps") := by
  intro fuel
  induction fuel with
  | zero => intro st _; rfl
  | succ n ih =>
    intro st
    simp only [runLoop]
    cases hstep : runStep parse oracle st with
    | finished it => intro h; exact absurd h (by simp)
    | failed e => intro h; exact absurd h (by simp)
    | next st2 mal =>
      simp only []
      exact ih st2

/-- C1: every run performs at most 8 iterations of the model-call loop, and a
run that exhausts the 8-iteration budget without producing an `Itinerary`
raises `RuntimeError("Failed to produce itinerary in allotted steps")`. -/
theorem run_iteration_budget (parse : String → Option Itinerary)
    (oracle : List Message → ModelResponse) (user_goal : String)
    (default_prefs : TravelerPrefs) :
    (TravelOrchestrator.run parse oracle user_goal default_prefs).iters ≤ 8 ∧
    ((TravelOrchestrator.run parse oracle user_goal default_prefs).exhausted = true →
      (TravelOrchestrator.run parse oracle user_goal default_prefs).result =
        .error (.runtimeError "Failed to produce itinerary in allotted steps")) :=
  ⟨runLoop_iters_le parse oracle 8 _, runLoop_exhausted_result parse oracle 8 _⟩

/-- C1, witness: against an oracle that always answers unparseable content,
the run exhausts its budget and ends in the budget `RuntimeError`. -/
theorem run_iteration_budget_witness :
    (TravelOrchestrator.run (fun _ => none) (finalOracle "not json") "g"
        samplePrefs).iters ≤ 8 ∧
    (TravelOrchestrator.run (fun _ => none) (finalOracle "not json") "g"
        samplePrefs).exhausted = true ∧
    (TravelOrchestrator.run (fun _ => none) (finalOracle "not json") "g"
        samplePrefs).result =
      .error (.runtimeError "Failed to produce itinerary in allotted steps") :=
  ⟨(run_iteration_budget (fun _ => none) (finalOracle "not json") "g"
      samplePrefs).1,
   by decide,
   (run_iteration_budget (fun _ => none) (finalOracle "not json") "g"
      samplePrefs).2 (by decide)⟩

/-- C2 fails as stated: nothing limits the malformed-final path to once per
run.  Against an oracle that always answers unparseable content, the path is
taken in all 8 iterations — the run issues 8 corrective retry prompts, not at
most one. -/
theorem malformed_retry_once_cex :
    (TravelOrchestrator.run (fun _ => none) (finalOracle "not json") "g"
        samplePrefs).malformed = 8 ∧
    1 < (TravelOrchestrator.run (fun _ => none) (finalOracle "not json") "g"
        samplePrefs).malformed ∧
    ((TravelOrchestrator.run (fun _ => none) (finalOracle "not json") "g"
        samplePrefs).state.messages.count (.user retryPrompt)) = 8 := by
  exact ⟨by decide, by decide, by decide⟩

/-- C2 amended: whenever a model response has no tool calls and its content
fails to parse as the final `Itinerary`, that iteration appends exactly the
assistant content and a single corrective `user` retry prompt and the loop
continues; this malformed-final path may recur in later iterations (up to the
8-iteration budget), it is not limited to once per run. -/
theorem runStep_malformed_retry (parse : String → Option Itinerary)
    (oracle : List Message → ModelResponse) (st : OrchState)
    (h1 : (oracle st.messages).tool_calls = [])
    (h2 : parse (oracle st.messages).content = none) :
    runStep parse oracle st =
      .next ⟨st.messages ++
          [.assistant (oracle st.messages).content, .user retryPrompt],
        st.acc⟩ true := by
  simp [runStep, h1, h2]

/-- C2 amended, witness: a no-tool-call response with unparseable content
yields exactly the two-message corrective retry. -/
theorem runStep_malformed_retry_witness :
    runStep (fun _ => none) (finalOracle "oops") startState =
      .next ⟨startState.messages ++ [.assistant "oops", .user retryPrompt],
        startState.acc⟩ true :=
  runStep_malformed_retry (fun _ => none) (finalOracle "oops") startState rfl rfl

end Travel

